import Mathlib

/-!
Verification of the fetch-and-render pipeline of the Todoist-import plugin
(`src/main.ts`).  The data model (`Project`, `Task`, `Comment`, the `due`
structure), the project lookup built by `loadProjects`, the renderer
`transformToMarkdown`, the enrichment step `withComments` / `Promise.all`,
and the `execute` pipeline are embedded shallowly below; HTTP fetches are
modelled as oracle functions passed in as parameters.
-/

namespace Todoist

/-- One comment attached to a task (`interface Comment`, src/main.ts:73-78). -/
structure Comment where
  content : String
  id : String
  posted_at : String
  task_id : String
deriving DecidableEq, Repr

/-- The structure of the `due` field of a task (src/main.ts:56-62). -/
structure Due where
  date : String
  is_recurring : Bool
  datetime : String
  string : String
  timezone : String
deriving DecidableEq, Repr

/-- A project record (`interface Project`, src/main.ts:80-93). -/
structure Project where
  id : String
  name : String
  comment_count : Nat
  order : Nat
  color : String
  is_shared : Bool
  is_favorite : Bool
  parent_id : String
  is_inbox_project : Bool
  is_team_inbox : Bool
  view_style : String
  url : String
deriving DecidableEq, Repr

/-- A task record (`interface Task`, src/main.ts:48-71).  The `due` field is
`Option Due` since the service omits it for tasks without a due date and the
renderer tests it for presence; `description` is a plain string whose empty
value plays the role of a JavaScript falsy (absent or empty) description.
The source types `duration` as `any`; it is never read, and is carried here
as an opaque optional string. -/
structure Task where
  creator_id : String
  created_at : String
  assignee_id : String
  assigner_id : String
  is_completed : Bool
  content : String
  description : String
  due : Option Due
  duration : Option String
  id : String
  labels : List String
  priority : Nat
  project_id : String
  section_id : String
  parent_id : String
  comments : List Comment
deriving DecidableEq, Repr

/-- Modelled from the spec: `format("YYYY-MM-DD")` from the external
`moment` library, applied to an ISO 8601 timestamp string, renders its
calendar date, i.e. the 10-character `YYYY-MM-DD` date part that such a
timestamp begins with (spec section 4.3: "creation date (formatted as
`YYYY-MM-DD` from `created_at`)"). -/
def momentFormatYYYYMMDD (s : String) : String :=
  String.mk (s.data.take 10)

/-- JavaScript `String.prototype.replace(" ", "-")` on the character list:
only the first space character is replaced by a hyphen
(src/main.ts:150 `.name.replace(" ", "-")`). -/
def replaceFirstSpaceAux : List Char → List Char
  | [] => []
  | c :: cs => if c = ' ' then '-' :: cs else c :: replaceFirstSpaceAux cs

/-- `name.replace(" ", "-")` at the string level. -/
def replaceFirstSpace (s : String) : String :=
  String.mk (replaceFirstSpaceAux s.data)

/-- The label tags: each label hash-prefixed, joined by single spaces
(src/main.ts:130-134). -/
def tagsOf (task : Task) : String :=
  String.intercalate " " (task.labels.map (fun label => "#" ++ label))

/-- The `created` annotation (src/main.ts:136). -/
def createdOf (task : Task) : String :=
  "[created:: " ++ momentFormatYYYYMMDD task.created_at ++ "]"

/-- The checkbox status character (src/main.ts:137). -/
def statusOf (task : Task) : String :=
  if task.is_completed then "x" else " "

/-- The description fragment: empty when the description is absent/empty
(JavaScript falsy), otherwise the description on its own line
(src/main.ts:138). -/
def descriptionOf (task : Task) : String :=
  if task.description = "" then "" else "\n" ++ task.description ++ "\n"

/-- The comments block: the content of each comment, blocks joined by a blank
line (src/main.ts:139-143). -/
def commentsOf (task : Task) : String :=
  String.intercalate "\n\n" (task.comments.map (fun comment => comment.content))

/-- The `due` annotation: present only when the task has a `due` field
(src/main.ts:145-147). -/
def dueOf (task : Task) : String :=
  match task.due with
  | some d => "[due:: " ++ momentFormatYYYYMMDD d.datetime ++ "]"
  | none => ""

/-- The `id` annotation (src/main.ts:148). -/
def idOf (task : Task) : String :=
  "[id:: " ++ task.id ++ "]"

/-- The priority label array (src/main.ts:149). -/
def priorityLabels : List String :=
  ["none", "low", "medium", "high", "highest"]

/-- The `priority` annotation: the raw priority integer indexes the label
array zero-based; a JavaScript out-of-range index produces `undefined`,
which the template literal renders as the string "undefined"
(src/main.ts:149). -/
def priorityOf (task : Task) : String :=
  "[priority:: " ++ priorityLabels.getD task.priority "undefined" ++ "]"

/-- The project tag: the name of the resolved project with its first space
replaced by a hyphen, hash-prefixed (src/main.ts:150). -/
def projectTagOf (proj : Project) : String :=
  "#project-" ++ replaceFirstSpace proj.name

/-- `transformToMarkdown` (src/main.ts:129-153).  The project lookup is the
`this.projects` record; dereferencing a missing project id in JavaScript
throws (reading `.name` of `undefined`), which the embedding renders as
`none`: the whole rendering of that task fails with no output. -/
def transformToMarkdown (projects : String → Option Project) (task : Task) :
    Option String :=
  match projects task.project_id with
  | none => none
  | some proj =>
      some ("- [" ++ statusOf task ++ "] " ++ task.content ++ " " ++
        tagsOf task ++ " " ++ projectTagOf proj ++ " " ++ createdOf task ++
        " " ++ priorityOf task ++ " " ++ idOf task ++ " " ++ dueOf task ++
        " " ++ descriptionOf task ++ "\n" ++ commentsOf task ++ "\n")

/-- The project lookup built by `loadProjects` (src/main.ts:155-165): the
fetched projects are inserted in order into the `this.projects` record, a
later project with the same id overwriting an earlier one. -/
def buildProjectsLookup (projects : List Project) : String → Option Project :=
  projects.foldl (fun acc proj => fun pid => if pid = proj.id then some proj else acc pid)
    (fun _ => none)

/-- `withComments` (src/main.ts:175-184): fetch the comments for a task
(one HTTP GET on the comments endpoint filtered by the task id, here an
oracle keyed by that id) and attach the result to the `comments` field of
the task.  A failed
fetch is a rejected promise: the error propagates. -/
def withComments (fetchComments : String → Except String (List Comment))
    (task : Task) : Except String Task :=
  (fetchComments task.id).map (fun comments => { task with comments := comments })

/-- The enrichment join of `loadData` (src/main.ts:120-126):
`Promise.all(tasks.map(withComments))` — every per-task fetch must succeed,
otherwise the whole aggregation rejects and no list is produced. -/
def enrichAll (fetchComments : String → Except String (List Comment))
    (tasks : List Task) : Except String (List Task) :=
  tasks.mapM (withComments fetchComments)

/-- The rendering half of `execute` (src/main.ts:103-113): map the renderer
over the enriched tasks and join the blocks with the `\n---\n` separator;
the joined text is what gets inserted at the cursor.  If the rendering of
any single task throws, the `map` throws, no joined text exists and nothing is
inserted — modelled by `none`. -/
def importAllTasksText (projects : String → Option Project)
    (tasks : List Task) : Option String :=
  (tasks.mapM (transformToMarkdown projects)).map (String.intercalate "\n---\n")

/-! ### The due-free and description-free decompositions of the template -/

/-- Everything the template emits before the `due` slot (src/main.ts:152). -/
def renderUpToDue (proj : Project) (task : Task) : String :=
  "- [" ++ statusOf task ++ "] " ++ task.content ++ " " ++ tagsOf task ++
    " " ++ projectTagOf proj ++ " " ++ createdOf task ++ " " ++
    priorityOf task ++ " " ++ idOf task ++ " "

/-- Everything the template emits after the `due` slot (src/main.ts:152). -/
def renderAfterDue (task : Task) : String :=
  " " ++ descriptionOf task ++ "\n" ++ commentsOf task ++ "\n"

/-- Everything the template emits before the description slot
(src/main.ts:152). -/
def renderBeforeDescr (proj : Project) (task : Task) : String :=
  renderUpToDue proj task ++ dueOf task ++ " "

/-! ### General lemmas -/

/-- A string `sub` occurs inside `s` (for some split `s = a ++ sub ++ b`)
exactly when its character list is an infix of the character list of `s`. -/
theorem exists_append_iff_isInfixData (s sub : String) :
    (∃ a b : String, s = a ++ sub ++ b) ↔ sub.data <:+: s.data := by
  constructor
  · rintro ⟨a, b, rfl⟩
    exact ⟨a.data, b.data, by simp [String.data_append]⟩
  · rintro ⟨x, y, h⟩
    refine ⟨String.mk x, String.mk y, String.ext ?_⟩
    simp [String.data_append, ← h]

/-- Mapping a fallible function over a list fails outright (in the `Option`
monad) as soon as any single element fails. -/
theorem mapM_eq_none_of_mem {α β : Type} (f : α → Option β) (l : List α)
    (x : α) (hx : x ∈ l) (hf : f x = none) : l.mapM f = none := by
  induction l with
  | nil => cases hx
  | cons y ys ih =>
    rw [List.mapM_cons]
    rcases List.mem_cons.mp hx with rfl | hmem
    · rw [hf]; rfl
    · cases hfy : f y with
      | none => rfl
      | some v => rw [ih hmem]; rfl

/-- Mapping a fallible function over a list fails outright (in the `Except`
monad) as soon as any single element fails. -/
theorem exceptMapM_error_of_mem {α β : Type} (f : α → Except String β)
    (l : List α) (x : α) (hx : x ∈ l) (e : String) (hf : f x = .error e) :
    ∃ e2, l.mapM f = Except.error e2 := by
  induction l with
  | nil => cases hx
  | cons y ys ih =>
    rw [List.mapM_cons]
    rcases List.mem_cons.mp hx with rfl | hmem
    · exact ⟨e, by rw [hf]; rfl⟩
    · cases hfy : f y with
      | error e3 => exact ⟨e3, rfl⟩
      | ok v =>
        obtain ⟨e2, he2⟩ := ih hmem
        exact ⟨e2, by rw [he2]; rfl⟩

/-- Replacing the first space: on a list with no space in front of an
explicit space character, exactly that space becomes a hyphen and the tail
is untouched. -/
theorem replaceFirstSpaceAux_eq (xs ys : List Char) (h : ' ' ∉ xs) :
    replaceFirstSpaceAux (xs ++ ' ' :: ys) = xs ++ '-' :: ys := by
  induction xs with
  | nil => simp [replaceFirstSpaceAux]
  | cons c cs ih =>
    have h1 : ¬ (c = ' ') := fun hc => h (by simp [hc])
    have h2 : ' ' ∉ cs := fun hm => h (List.mem_cons_of_mem _ hm)
    simp [replaceFirstSpaceAux, h1, ih h2]

/-- `(String.mk l).data` unfolds. -/
theorem data_mk (l : List Char) : (String.mk l).data = l := rfl

/-- String-level version of `replaceFirstSpaceAux_eq`. -/
theorem replaceFirstSpace_eq (pre post : String) (h : ' ' ∉ pre.data) :
    replaceFirstSpace (pre ++ " " ++ post) = pre ++ "-" ++ post := by
  apply String.ext
  have hsp : (" " : String).data = [' '] := rfl
  have hhy : ("-" : String).data = ['-'] := rfl
  simp only [replaceFirstSpace, data_mk, String.data_append, hsp, hhy,
    List.append_assoc, List.singleton_append]
  exact replaceFirstSpaceAux_eq _ _ h

/-- Unfolding `transformToMarkdown` when the project lookup resolves. -/
theorem transformToMarkdown_eq (ps : String → Option Project) (t : Task)
    (P : Project) (h : ps t.project_id = some P) :
    transformToMarkdown ps t =
      some ("- [" ++ statusOf t ++ "] " ++ t.content ++ " " ++ tagsOf t ++
        " " ++ projectTagOf P ++ " " ++ createdOf t ++ " " ++ priorityOf t ++
        " " ++ idOf t ++ " " ++ dueOf t ++ " " ++ descriptionOf t ++ "\n" ++
        commentsOf t ++ "\n") := by
  simp [transformToMarkdown, h]

/-! ### Concrete instances used by the end-to-end scenario and witnesses -/

/-- The project of the end-to-end scenario. -/
def proj1 : Project :=
  { id := "p1", name := "Work Stuff", comment_count := 0, order := 0,
    color := "", is_shared := false, is_favorite := false, parent_id := "",
    is_inbox_project := false, is_team_inbox := false, view_style := "",
    url := "" }

/-- The task of the end-to-end scenario. -/
def task1 : Task :=
  { creator_id := "", created_at := "2024-01-05T10:00:00Z", assignee_id := "",
    assigner_id := "", is_completed := false, content := "Write report",
    description := "", due := none, duration := none, id := "t1",
    labels := ["urgent"], priority := 3, project_id := "p1",
    section_id := "", parent_id := "", comments := [] }

/-- A project with a space-free name, for the description scenario. -/
def proj6 : Project :=
  { id := "p6", name := "Work", comment_count := 0, order := 0,
    color := "", is_shared := false, is_favorite := false, parent_id := "",
    is_inbox_project := false, is_team_inbox := false, view_style := "",
    url := "" }

/-- A task carrying a non-empty description. -/
def task6 : Task :=
  { creator_id := "", created_at := "2024-01-01T00:00:00Z", assignee_id := "",
    assigner_id := "", is_completed := false, content := "Hello",
    description := "Desc", due := none, duration := none, id := "t2",
    labels := [], priority := 1, project_id := "p6",
    section_id := "", parent_id := "", comments := [] }

/-- A comment-fetch oracle that always fails. -/
def fetchFail : String → Except String (List Comment) :=
  fun _ => Except.error "network failure"

/-- A concrete comment. -/
def comment1 : Comment :=
  { content := "a note", id := "c1", posted_at := "2024-01-06T09:00:00Z",
    task_id := "t1" }

/-- A comment-fetch oracle that always succeeds with one comment. -/
def fetchOk : String → Except String (List Comment) :=
  fun _ => Except.ok [comment1]

/-! ### The claims -/

/-- Claim C1, as stated, is false: rendering the scenario task produces two
spaces between the id annotation and the first newline, because the empty
due slot and the empty description slot each leave behind the separator
space that the template hard-codes around them.  This theorem refutes the
single-space output the claim asserts. -/
theorem scenario_output_not_single_spaced :
    transformToMarkdown (buildProjectsLookup [proj1]) task1 ≠
      some "- [ ] Write report #urgent #project-Work-Stuff [created:: 2024-01-05] [priority:: high] [id:: t1] \n\n" := by
  decide

/-- Claim C1 amended: the scenario renders exactly the claimed text except
that TWO spaces separate the id annotation from the first newline. -/
theorem scenario_output_exact :
    transformToMarkdown (buildProjectsLookup [proj1]) task1 =
      some "- [ ] Write report #urgent #project-Work-Stuff [created:: 2024-01-05] [priority:: high] [id:: t1]  \n\n" := by
  decide

/-- Claim C2: a task whose project id misses the lookup built from the
fetched projects makes its own rendering fail (the dereference of a missing
record throws, modelled as `none`), and with it the whole import: no joined
text exists, so nothing is inserted into the editor and no partial output
survives. -/
theorem missing_project_aborts_import (projects : List Project)
    (tasks : List Task) (t : Task) (ht : t ∈ tasks)
    (h : buildProjectsLookup projects t.project_id = none) :
    transformToMarkdown (buildProjectsLookup projects) t = none ∧
      importAllTasksText (buildProjectsLookup projects) tasks = none := by
  have h1 : transformToMarkdown (buildProjectsLookup projects) t = none := by
    simp [transformToMarkdown, h]
  refine ⟨h1, ?_⟩
  unfold importAllTasksText
  rw [mapM_eq_none_of_mem _ tasks t ht h1]
  rfl

/-- Witness for C2: with no fetched projects at all, importing the scenario
task inserts nothing. -/
theorem missing_project_aborts_import_witness :
    transformToMarkdown (buildProjectsLookup []) task1 = none ∧
      importAllTasksText (buildProjectsLookup []) [task1] = none :=
  missing_project_aborts_import [] [task1] task1 (by decide) (by decide)

/-- Claim C3: for a task with priority in 1..4, the rendered block contains
the annotation built from the element at zero-based index `priority` of the
label array; that array maps index 1 to "low" (not "none") and index 4 to
"highest". -/
theorem priority_annotation_indexes_label_array
    (ps : String → Option Project) (t : Task) (P : Project)
    (h : ps t.project_id = some P) (hp : t.priority ∈ [1, 2, 3, 4]) :
    (∃ a b : String, transformToMarkdown ps t =
        some (a ++ ("[priority:: " ++ priorityLabels.getD t.priority "undefined" ++ "]") ++ b)) ∧
      priorityLabels.getD 1 "undefined" = "low" ∧
      priorityLabels.getD 4 "undefined" = "highest" := by
  refine ⟨⟨"- [" ++ statusOf t ++ "] " ++ t.content ++ " " ++ tagsOf t ++
    " " ++ projectTagOf P ++ " " ++ createdOf t ++ " ",
    " " ++ idOf t ++ " " ++ dueOf t ++ " " ++ descriptionOf t ++ "\n" ++
    commentsOf t ++ "\n", ?_⟩, by decide, by decide⟩
  rw [transformToMarkdown_eq ps t P h, Option.some_inj]
  apply String.ext
  simp [String.data_append, priorityOf]

/-- Witness for C3: the scenario task (priority 3) instantiates the
priority-annotation theorem. -/
theorem priority_annotation_indexes_label_array_witness :
    (∃ a b : String, transformToMarkdown (buildProjectsLookup [proj1]) task1 =
        some (a ++ ("[priority:: " ++ priorityLabels.getD task1.priority "undefined" ++ "]") ++ b)) ∧
      priorityLabels.getD 1 "undefined" = "low" ∧
      priorityLabels.getD 4 "undefined" = "highest" :=
  priority_annotation_indexes_label_array (buildProjectsLookup [proj1]) task1
    proj1 (by decide) (by decide)

/-- Claim C4: for a task resolving to project P whose name splits as
`pre ++ " " ++ post` around its first space (no space occurs in `pre`; any
later space sits untouched inside `post`), the rendered block contains the
tag hash-prefixed from the name with exactly that first space turned into a
hyphen. -/
theorem project_tag_replaces_first_space (ps : String → Option Project)
    (t : Task) (P : Project) (pre post : String)
    (h : ps t.project_id = some P) (hname : P.name = pre ++ " " ++ post)
    (hpre : ' ' ∉ pre.data) :
    ∃ a b : String, transformToMarkdown ps t =
      some (a ++ ("#project-" ++ pre ++ "-" ++ post) ++ b) := by
  refine ⟨"- [" ++ statusOf t ++ "] " ++ t.content ++ " " ++ tagsOf t ++ " ",
    " " ++ createdOf t ++ " " ++ priorityOf t ++ " " ++ idOf t ++ " " ++
    dueOf t ++ " " ++ descriptionOf t ++ "\n" ++ commentsOf t ++ "\n", ?_⟩
  have htag : projectTagOf P = "#project-" ++ (pre ++ "-" ++ post) := by
    rw [projectTagOf, hname, replaceFirstSpace_eq pre post hpre]
  rw [transformToMarkdown_eq ps t P h, Option.some_inj, htag]
  apply String.ext
  simp [String.data_append]

/-- Witness for C4: the scenario project name "Work Stuff" renders as the
tag with its space hyphenated. -/
theorem project_tag_replaces_first_space_witness :
    ∃ a b : String, transformToMarkdown (buildProjectsLookup [proj1]) task1 =
      some (a ++ ("#project-" ++ "Work" ++ "-" ++ "Stuff") ++ b) :=
  project_tag_replaces_first_space (buildProjectsLookup [proj1]) task1 proj1
    "Work" "Stuff" (by decide) (by decide) (by decide)

/-- Claim C5: when the task has no due field the rendered block is exactly
the concatenation of the two due-free template parts — no due annotation is
emitted; when a due field is present the block carries, between those same
parts, the annotation built from the datetime sub-field formatted as
YYYY-MM-DD. -/
theorem due_annotation_iff_due_present (ps : String → Option Project)
    (t : Task) (P : Project) (h : ps t.project_id = some P) :
    (t.due = none →
      transformToMarkdown ps t = some (renderUpToDue P t ++ renderAfterDue t)) ∧
    (∀ d, t.due = some d →
      transformToMarkdown ps t = some (renderUpToDue P t ++
        ("[due:: " ++ momentFormatYYYYMMDD d.datetime ++ "]") ++
        renderAfterDue t)) := by
  constructor
  · intro hd
    rw [transformToMarkdown_eq ps t P h, Option.some_inj]
    apply String.ext
    simp [String.data_append, renderUpToDue, renderAfterDue, dueOf, hd]
  · intro d hd
    rw [transformToMarkdown_eq ps t P h, Option.some_inj]
    apply String.ext
    simp [String.data_append, renderUpToDue, renderAfterDue, dueOf, hd]

/-- Witness for C5: the scenario task has no due field, so its block is the
bare concatenation of the due-free parts. -/
theorem due_annotation_iff_due_present_witness :
    (task1.due = none →
      transformToMarkdown (buildProjectsLookup [proj1]) task1 =
        some (renderUpToDue proj1 task1 ++ renderAfterDue task1)) ∧
    (∀ d, task1.due = some d →
      transformToMarkdown (buildProjectsLookup [proj1]) task1 =
        some (renderUpToDue proj1 task1 ++
          ("[due:: " ++ momentFormatYYYYMMDD d.datetime ++ "]") ++
          renderAfterDue task1)) :=
  due_annotation_iff_due_present (buildProjectsLookup [proj1]) task1 proj1
    (by decide)

set_option maxRecDepth 8192 in
/-- Claim C6, as stated, is false: the description is NOT surrounded by
blank lines.  For the concrete task with description "Desc" the rendered
block nowhere contains a blank line, then "Desc", then a blank line — the
description line is preceded only by the single newline that ends the
checkbox line. -/
theorem description_not_surrounded_by_blank_lines :
    ¬ ∃ a b : String, transformToMarkdown (buildProjectsLookup [proj6]) task6 =
      some (a ++ ("\n\n" ++ "Desc" ++ "\n\n") ++ b) := by
  have hren : transformToMarkdown (buildProjectsLookup [proj6]) task6 =
      some "- [ ] Hello  #project-Work [created:: 2024-01-01] [priority:: low] [id:: t2]  \nDesc\n\n\n" := by
    decide
  intro hex
  obtain ⟨a, b, hab⟩ := hex
  rw [hren] at hab
  have heq := Option.some.inj hab
  have hinf := (exists_append_iff_isInfixData _ _).mp ⟨a, b, heq⟩
  exact absurd hinf (by decide)

/-- Claim C6 amended: a non-empty description is emitted as a leading
newline, the description text, and a trailing newline, so it stands on its
own line immediately after the line of checkbox, tags and metadata, and is
FOLLOWED by a blank line before the comments block, but is not preceded by
one; an empty description emits nothing at all. -/
theorem description_own_line_followed_by_blank_line
    (ps : String → Option Project) (t : Task) (P : Project)
    (h : ps t.project_id = some P) :
    (t.description = "" →
      transformToMarkdown ps t =
        some (renderBeforeDescr P t ++ "\n" ++ commentsOf t ++ "\n")) ∧
    (t.description ≠ "" →
      transformToMarkdown ps t =
        some (renderBeforeDescr P t ++ "\n" ++ t.description ++ "\n" ++ "\n" ++
          commentsOf t ++ "\n")) := by
  constructor
  · intro hd
    rw [transformToMarkdown_eq ps t P h, Option.some_inj]
    apply String.ext
    simp [String.data_append, renderBeforeDescr, renderUpToDue,
      descriptionOf, hd]
  · intro hd
    rw [transformToMarkdown_eq ps t P h, Option.some_inj]
    apply String.ext
    simp [String.data_append, renderBeforeDescr, renderUpToDue,
      descriptionOf, hd]

/-- Witness for the amended C6: the task with description "Desc"
instantiates the description-placement theorem. -/
theorem description_own_line_followed_by_blank_line_witness :
    (task6.description = "" →
      transformToMarkdown (buildProjectsLookup [proj6]) task6 =
        some (renderBeforeDescr proj6 task6 ++ "\n" ++ commentsOf task6 ++ "\n")) ∧
    (task6.description ≠ "" →
      transformToMarkdown (buildProjectsLookup [proj6]) task6 =
        some (renderBeforeDescr proj6 task6 ++ "\n" ++ task6.description ++
          "\n" ++ "\n" ++ commentsOf task6 ++ "\n")) :=
  description_own_line_followed_by_blank_line (buildProjectsLookup [proj6])
    task6 proj6 (by decide)

/-- Claim C7: if the comment fetch of any single task in the batch fails,
the whole enrichment join fails — the aggregation never returns an enriched
task list, and no partial result is surfaced (the failure value carries no
list at all). -/
theorem comment_fetch_failure_fails_aggregation
    (fetchComments : String → Except String (List Comment))
    (tasks : List Task) (t : Task) (ht : t ∈ tasks) (e : String)
    (he : fetchComments t.id = Except.error e) :
    (∃ e2, enrichAll fetchComments tasks = Except.error e2) ∧
      ∀ l, enrichAll fetchComments tasks ≠ Except.ok l := by
  have hw : withComments fetchComments t = Except.error e := by
    unfold withComments
    rw [he]
    rfl
  have hmain : ∃ e2, enrichAll fetchComments tasks = Except.error e2 := by
    unfold enrichAll
    exact exceptMapM_error_of_mem _ tasks t ht e hw
  refine ⟨hmain, ?_⟩
  obtain ⟨e2, he2⟩ := hmain
  intro l hl
  rw [he2] at hl
  cases hl

/-- Witness for C7: with an always-failing comment fetch, enriching the
scenario task list fails as a whole. -/
theorem comment_fetch_failure_fails_aggregation_witness :
    (∃ e2, enrichAll fetchFail [task1] = Except.error e2) ∧
      ∀ l, enrichAll fetchFail [task1] ≠ Except.ok l :=
  comment_fetch_failure_fails_aggregation fetchFail [task1] task1 (by decide)
    "network failure" rfl

/-- Claim C8: a completed task renders with a checked checkbox marker and an
uncompleted one with the blank marker. -/
theorem checkbox_marker_matches_completion (ps : String → Option Project)
    (t : Task) (P : Project) (h : ps t.project_id = some P) :
    (t.is_completed = true →
      ∃ r, transformToMarkdown ps t = some ("- [x] " ++ r)) ∧
    (t.is_completed = false →
      ∃ r, transformToMarkdown ps t = some ("- [ ] " ++ r)) := by
  constructor
  · intro hc
    refine ⟨t.content ++ " " ++ tagsOf t ++ " " ++ projectTagOf P ++ " " ++
      createdOf t ++ " " ++ priorityOf t ++ " " ++ idOf t ++ " " ++ dueOf t ++
      " " ++ descriptionOf t ++ "\n" ++ commentsOf t ++ "\n", ?_⟩
    rw [transformToMarkdown_eq ps t P h, Option.some_inj]
    apply String.ext
    have dx : ("- [x] " : String).data =
        ("- [" : String).data ++ ("x" : String).data ++ ("] " : String).data := by decide
    simp [String.data_append, statusOf, hc, dx]
  · intro hc
    refine ⟨t.content ++ " " ++ tagsOf t ++ " " ++ projectTagOf P ++ " " ++
      createdOf t ++ " " ++ priorityOf t ++ " " ++ idOf t ++ " " ++ dueOf t ++
      " " ++ descriptionOf t ++ "\n" ++ commentsOf t ++ "\n", ?_⟩
    rw [transformToMarkdown_eq ps t P h, Option.some_inj]
    apply String.ext
    have dsp : ("- [ ] " : String).data =
        ("- [" : String).data ++ (" " : String).data ++ ("] " : String).data := by decide
    simp [String.data_append, statusOf, hc, dsp]

/-- Witness for C8: the scenario task is not completed and renders with the
blank marker. -/
theorem checkbox_marker_matches_completion_witness :
    (task1.is_completed = true →
      ∃ r, transformToMarkdown (buildProjectsLookup [proj1]) task1 =
        some ("- [x] " ++ r)) ∧
    (task1.is_completed = false →
      ∃ r, transformToMarkdown (buildProjectsLookup [proj1]) task1 =
        some ("- [ ] " ++ r)) :=
  checkbox_marker_matches_completion (buildProjectsLookup [proj1]) task1 proj1
    (by decide)

/-- Claim C9: rendering is a pure, deterministic function of the task and
the project lookup — equal tasks and pointwise-equal lookups give
byte-identical output; the embedding is a function, reflecting that the
source renderer writes neither the task nor the lookup. -/
theorem transformToMarkdown_deterministic (ps1 ps2 : String → Option Project)
    (t1 t2 : Task) (ht : t1 = t2) (hps : ∀ pid, ps1 pid = ps2 pid) :
    transformToMarkdown ps1 t1 = transformToMarkdown ps2 t2 := by
  subst ht
  unfold transformToMarkdown
  rw [hps]

/-- Witness for C9: two invocations on the scenario input agree. -/
theorem transformToMarkdown_deterministic_witness :
    transformToMarkdown (buildProjectsLookup [proj1]) task1 =
      transformToMarkdown (buildProjectsLookup [proj1]) task1 :=
  transformToMarkdown_deterministic (buildProjectsLookup [proj1])
    (buildProjectsLookup [proj1]) task1 task1 rfl (fun _ => rfl)

/-- Claim C10: enriching one task with a successful comment fetch returns
that task with only the comments field set to the fetched list; the nine
other data fields are unchanged. -/
theorem withComments_updates_only_comments
    (fetchComments : String → Except String (List Comment)) (t : Task)
    (cs : List Comment) (h : fetchComments t.id = Except.ok cs) :
    ∃ t2, withComments fetchComments t = Except.ok t2 ∧ t2.comments = cs ∧
      t2.id = t.id ∧ t2.content = t.content ∧
      t2.description = t.description ∧ t2.is_completed = t.is_completed ∧
      t2.created_at = t.created_at ∧ t2.due = t.due ∧
      t2.priority = t.priority ∧ t2.labels = t.labels ∧
      t2.project_id = t.project_id := by
  refine ⟨{ t with comments := cs }, ?_, rfl, rfl, rfl, rfl, rfl, rfl, rfl,
    rfl, rfl, rfl⟩
  unfold withComments
  rw [h]
  rfl

/-- Witness for C10: enriching the scenario task with a fetch returning one
comment keeps every other field. -/
theorem withComments_updates_only_comments_witness :
    ∃ t2, withComments fetchOk task1 = Except.ok t2 ∧
      t2.comments = [comment1] ∧ t2.id = task1.id ∧
      t2.content = task1.content ∧ t2.description = task1.description ∧
      t2.is_completed = task1.is_completed ∧
      t2.created_at = task1.created_at ∧ t2.due = task1.due ∧
      t2.priority = task1.priority ∧ t2.labels = task1.labels ∧
      t2.project_id = task1.project_id :=
  withComments_updates_only_comments fetchOk task1 [comment1] rfl

end Todoist
